import Mathlib

/-!
Shallow embedding of `src/cuda4py/curand/_curand.py` (cuRAND cffi bindings of
cuda4py).  The module holds process-wide loader state (`ffi`, `lib`, the shared
`CU.ERRORS` table), a one-time initialization routine, and the `CURAND` wrapper
object with its lifecycle methods (`__init__`, `_release`, `__del__`,
`handle`, `__int__`).  Global mutable state is threaded explicitly; the
behaviour of `ffi.dlopen` and of the two native calls
(`curandCreateGenerator`, `curandDestroyGenerator`) is abstracted as function
parameters, since those live in external libraries.
-/

namespace Cuda4pyCurand

/-! ### Status codes (source lines 53-65) -/

def CURAND_STATUS_SUCCESS : Nat := 0
def CURAND_STATUS_VERSION_MISMATCH : Nat := 100
def CURAND_STATUS_NOT_INITIALIZED : Nat := 101
def CURAND_STATUS_ALLOCATION_FAILED : Nat := 102
def CURAND_STATUS_TYPE_ERROR : Nat := 103
def CURAND_STATUS_OUT_OF_RANGE : Nat := 104
def CURAND_STATUS_LENGTH_NOT_MULTIPLE : Nat := 105
def CURAND_STATUS_DOUBLE_PRECISION_REQUIRED : Nat := 106
def CURAND_STATUS_LAUNCH_FAILURE : Nat := 201
def CURAND_STATUS_PREEXISTING_FAILURE : Nat := 202
def CURAND_STATUS_INITIALIZATION_FAILED : Nat := 203
def CURAND_STATUS_ARCH_MISMATCH : Nat := 204
def CURAND_STATUS_INTERNAL_ERROR : Nat := 999

/-- The `ERRORS` dict literal (source lines 69-83), as an association list in
the literal's insertion order (Python dict iteration order). -/
def ERRORS : List (Nat × String) :=
  [(CURAND_STATUS_VERSION_MISMATCH, "CURAND_STATUS_VERSION_MISMATCH"),
   (CURAND_STATUS_NOT_INITIALIZED, "CURAND_STATUS_NOT_INITIALIZED"),
   (CURAND_STATUS_ALLOCATION_FAILED, "CURAND_STATUS_ALLOCATION_FAILED"),
   (CURAND_STATUS_TYPE_ERROR, "CURAND_STATUS_TYPE_ERROR"),
   (CURAND_STATUS_OUT_OF_RANGE, "CURAND_STATUS_OUT_OF_RANGE"),
   (CURAND_STATUS_LENGTH_NOT_MULTIPLE, "CURAND_STATUS_LENGTH_NOT_MULTIPLE"),
   (CURAND_STATUS_DOUBLE_PRECISION_REQUIRED,
    "CURAND_STATUS_DOUBLE_PRECISION_REQUIRED"),
   (CURAND_STATUS_LAUNCH_FAILURE, "CURAND_STATUS_LAUNCH_FAILURE"),
   (CURAND_STATUS_PREEXISTING_FAILURE, "CURAND_STATUS_PREEXISTING_FAILURE"),
   (CURAND_STATUS_INITIALIZATION_FAILED,
    "CURAND_STATUS_INITIALIZATION_FAILED"),
   (CURAND_STATUS_ARCH_MISMATCH, "CURAND_STATUS_ARCH_MISMATCH"),
   (CURAND_STATUS_INTERNAL_ERROR, "CURAND_STATUS_INTERNAL_ERROR")]

/-! ### RNG kind selectors (source lines 87-98) -/

def CURAND_RNG_TEST : Nat := 0
def CURAND_RNG_PSEUDO_DEFAULT : Nat := 100
def CURAND_RNG_PSEUDO_XORWOW : Nat := 101
def CURAND_RNG_PSEUDO_MRG32K3A : Nat := 121
def CURAND_RNG_PSEUDO_MTGP32 : Nat := 141
def CURAND_RNG_PSEUDO_MT19937 : Nat := 142
def CURAND_RNG_PSEUDO_PHILOX4_32_10 : Nat := 161
def CURAND_RNG_QUASI_DEFAULT : Nat := 200
def CURAND_RNG_QUASI_SOBOL32 : Nat := 201
def CURAND_RNG_QUASI_SCRAMBLED_SOBOL32 : Nat := 202
def CURAND_RNG_QUASI_SOBOL64 : Nat := 203
def CURAND_RNG_QUASI_SCRAMBLED_SOBOL64 : Nat := 204

/-- Every RNG algorithm kind constant declared by the module. -/
def supportedRngKinds : List Nat :=
  [CURAND_RNG_TEST, CURAND_RNG_PSEUDO_DEFAULT, CURAND_RNG_PSEUDO_XORWOW,
   CURAND_RNG_PSEUDO_MRG32K3A, CURAND_RNG_PSEUDO_MTGP32,
   CURAND_RNG_PSEUDO_MT19937, CURAND_RNG_PSEUDO_PHILOX4_32_10,
   CURAND_RNG_QUASI_DEFAULT, CURAND_RNG_QUASI_SOBOL32,
   CURAND_RNG_QUASI_SCRAMBLED_SOBOL32, CURAND_RNG_QUASI_SOBOL64,
   CURAND_RNG_QUASI_SCRAMBLED_SOBOL64]

/-! ### Python dict as association list (`CU.ERRORS` shared table) -/

/-- The shared error table `CU.ERRORS`: a Python dict from status code to
message, modelled as an association list in insertion order. -/
abbrev Table := List (Nat × String)

/-- Python `d[k]` read (`none` when the key is absent). -/
def dictGet (t : Table) (k : Nat) : Option String :=
  match t with
  | [] => none
  | (k', v) :: rest => if k' = k then some v else dictGet rest k

/-- Python `d[k] = v`: update-in-place when the key exists (keeping its
position), otherwise append at the end. -/
def dictSet (t : Table) (k : Nat) (v : String) : Table :=
  match t with
  | [] => [(k, v)]
  | (k', v') :: rest =>
      if k' = k then (k, v) :: rest else (k', v') :: dictSet rest k v

/-- Keys of a table occur at most once (a Python dict guarantees this). -/
def keysNodup (t : Table) : Prop := (t.map Prod.fst).Nodup

instance (t : Table) : Decidable (keysNodup t) := by
  unfold keysNodup; infer_instance

/-- Boolean test that `small` starts `big` (character lists). -/
def charsStartWith : List Char → List Char → Bool
  | [], _ => true
  | _ :: _, [] => false
  | a :: as, b :: bs => a = b && charsStartWith as bs

/-- Boolean test that `needle` occurs contiguously inside `hay`. -/
def charsContain (needle : List Char) : List Char → Bool
  | [] => needle.isEmpty
  | b :: rest => charsStartWith needle (b :: rest) || charsContain needle rest

/-- Python substring containment `needle in hay`. -/
def strIn (needle hay : String) : Bool := charsContain needle.data hay.data

/-! ### The error-table merge (source lines 135-142)

```python
for code, msg in ERRORS.items():
    if code in CU.ERRORS:
        s = " | " + msg
        if s not in CU.ERRORS[code]:
            CU.ERRORS[code] += s
    else:
        CU.ERRORS[code] = msg
```
-/

/-- One iteration of the merge loop body for the pair `(code, msg)`;
`" | " ++ msg` is the local `s`. -/
def mergeOne (t : Table) (code : Nat) (msg : String) : Table :=
  match dictGet t code with
  | some old =>
      if strIn (" | " ++ msg) old then t
      else dictSet t code (old ++ (" | " ++ msg))
  | none => dictSet t code msg

/-- The merge loop over a list of `(code, msg)` pairs, in order. -/
def mergeInto (t : Table) : List (Nat × String) → Table
  | [] => t
  | (code, msg) :: rest => mergeInto (mergeOne t code msg) rest

/-- The whole merge of `ERRORS` into the shared table `CU.ERRORS`. -/
def mergeErrors (t : Table) : Table := mergeInto t ERRORS

/-! ### Process-wide loader state and `initialize` (source lines 101-153) -/

/-- The module-level globals: `ffi` (is the cffi parser set?), `lib` (which
backend name was loaded, if any) and the shared table `CU.ERRORS`. -/
structure LoaderState where
  ffi : Bool
  lib : Option String
  cuErrors : Table
  deriving DecidableEq, Repr

/-- State at import time: `ffi = None`, `lib = None`; the initial content of
`CU.ERRORS` is owned by the external `cuda4py._py` module, so theorems
quantify over it; the empty table is used for concrete evaluation. -/
def initialState : LoaderState := { ffi := false, lib := none, cuErrors := [] }

/-- The `for libnme in backends: try dlopen / except OSError` loop: the first
candidate for which `loads` succeeds, `none` when the loop falls through to
its `else` clause (including the empty list). -/
def findLoadable (loads : String → Bool) : List String → Option String
  | [] => none
  | b :: rest => if loads b then some b else findLoadable loads rest

/-- Python message of the `OSError` raised when no backend loads
(source line 133). -/
def couldNotLoadMsg : String := "Could not load curand library"

/-- The private `_initialize(backends)` function (source lines 101-142),
run under `cuffi.lock`.  Returns the new global state and the raised error
message, if any.  `loads` abstracts `ffi.dlopen` succeeding on a name.
On the failure path the source resets `ffi` to `None` before raising and
never touches `CU.ERRORS`; on success `ffi` holds the parser, `lib` the
loaded library, and the `ERRORS` descriptions are merged into `CU.ERRORS`. -/
def initializeOnce (loads : String → Bool) (backends : List String)
    (st : LoaderState) : LoaderState × Option String :=
  if st.lib.isSome then (st, none)
  else
    match findLoadable loads backends with
    | some name =>
        ({ ffi := true, lib := some name, cuErrors := mergeErrors st.cuErrors },
         none)
    | none => ({ st with ffi := false }, some couldNotLoadMsg)

/-- The public `initialize(backends)` function (source lines 145-153):
check outside the lock, then (modelled sequentially) enter `cuffi.lock` and
run `_initialize`, which re-checks.  `cuffi.initialize()` touches only the
external `cuda4py._cffi` module, not this module's globals. -/
def initializeLib (loads : String → Bool) (backends : List String)
    (st : LoaderState) : LoaderState × Option String :=
  if st.lib.isSome then (st, none)
  else initializeOnce loads backends st

/-- The default `backends` tuple of `initialize` (source line 145). -/
def defaultBackends : List String := ["libcurand.so", "curand64_65.dll"]

/-! ### Errors raised by the module -/

/-- The kinds of exception the module can raise: `OSError` from the loader,
`CU.error(op, code)` from a failed native call (modelled from the spec:
`CU.error` lives in the external `cuda4py._py` module and builds an
exception-like value carrying the operation name and the status code,
resolved through the shared table), `SystemError` from the destructor-order
check, and Python's `AttributeError`. -/
inductive PyErr where
  | osError (msg : String)
  | cuError (op : String) (code : Nat)
  | systemError (msg : String)
  | attrError (attr : String)
  deriving DecidableEq, Repr

/-! ### The device context collaborator -/

/-- Modelled from the spec: the device-context collaborator
(`cuda4py._py.Context`, not under `src/`) exposes `handle` (an integer, or
unset once the context is torn down) and reference tracking of dependent
objects; `refs` lists the registered object identities in order. -/
structure Context where
  handle : Option Nat
  refs : List Nat
  deriving DecidableEq, Repr

/-- Modelled from the spec: `context._add_ref(obj)` registers a dependent
object with the context's lifetime tracking. -/
def ctxAddRef (ctx : Context) (objId : Nat) : Context :=
  { ctx with refs := ctx.refs ++ [objId] }

/-- Modelled from the spec: `context._del_ref(obj)` deregisters a dependent
object from the context's lifetime tracking. -/
def ctxDelRef (ctx : Context) (objId : Nat) : Context :=
  { ctx with refs := ctx.refs.erase objId }

/-! ### The CURAND object (source lines 156-193) -/

/-- Instance attributes of a `CURAND` object.  `lib` is `self._lib` (the
reference to the loaded binding held so that release does not depend on the
global).  `handleAttr` is the `self._handle` attribute: `none` when the
attribute was never assigned (construction aborted before reaching it),
`some none` when it was assigned `None`, `some (some h)` when it holds a
live native handle (an unsigned `size_t`, hence a `Nat`). -/
structure CURANDObj where
  lib : Option String
  handleAttr : Option (Option Nat)
  deriving DecidableEq, Repr

/-- A constructed object never has `self._lib` set without `self._handle`
assigned: `_lib` is only assigned (line 170) immediately before `_handle`
(line 171), with no fallible step between. -/
def wfObj (o : CURANDObj) : Prop := o.lib.isSome → o.handleAttr.isSome

instance (o : CURANDObj) : Decidable (wfObj o) := by
  unfold wfObj; infer_instance

/-- The `handle` property (source lines 176-178): reading `self._handle`;
outer `none` is Python's `AttributeError` when the attribute was never set. -/
def handleProp (o : CURANDObj) : Option (Option Nat) := o.handleAttr

/-- The `__int__` method (source lines 173-174): returns `self.handle`. -/
def intOf (o : CURANDObj) : Option (Option Nat) := handleProp o

/-- Everything observable after `CURAND.__init__(context, rng_type)` ran:
the object as left behind (also when the constructor raised), the context,
the loader globals, and the raised exception, if any. -/
structure InitResult where
  obj : CURANDObj
  ctx : Context
  loader : LoaderState
  err : Option PyErr
  deriving DecidableEq, Repr

/-- `CURAND.__init__(self, context, rng_type)` (source lines 159-171).
`loads` abstracts `ffi.dlopen`; `createGen rng_type` abstracts the native
`curandCreateGenerator` call, returning the status and the value written
into the output slot (a `size_t`, so a `Nat`).  The native call runs inside
`with context:` (scoped activation owned by the context collaborator; no
effect on the state modelled here).  Steps, in source order:
`self._context = context`; `self._lib = None`; `context._add_ref(self)`;
`initialize()`; `ffi.new`; the native call; on non-zero status set
`self._handle = None` and raise `CU.error`; otherwise store the binding
reference and the integer handle. -/
def curandInit (loads : String → Bool) (createGen : Nat → Nat × Nat)
    (objId : Nat) (ctx : Context) (st : LoaderState) (rngType : Nat) :
    InitResult :=
  let obj0 : CURANDObj := { lib := none, handleAttr := none }
  let ctx1 := ctxAddRef ctx objId
  let p := initializeLib loads defaultBackends st
  match p.2 with
  | some e => { obj := obj0, ctx := ctx1, loader := p.1,
                err := some (PyErr.osError e) }
  | none =>
      let r := createGen rngType
      if r.1 = 0 then
        { obj := { lib := p.1.lib, handleAttr := some (some r.2) },
          ctx := ctx1, loader := p.1, err := none }
      else
        { obj := { obj0 with handleAttr := some none },
          ctx := ctx1, loader := p.1,
          err := some (PyErr.cuError "curandCreateGenerator" r.1) }

/-- Observable outcome of `CURAND._release`. -/
structure RelResult where
  obj : CURANDObj
  destroyCalled : Bool
  attrFault : Bool
  deriving DecidableEq, Repr

/-- `CURAND._release(self)` (source lines 184-187).  `destroyGen` abstracts
the native `curandDestroyGenerator` call (its status is computed and
discarded by the source).  The guard
`if self._lib is not None and self.handle is not None` short-circuits, so
`self._handle` is never read when `self._lib` is `None`; `attrFault` marks
the `AttributeError` that a read of an unassigned `_handle` would raise. -/
def curandRelease (destroyGen : Nat → Nat) (o : CURANDObj) : RelResult :=
  match o.lib with
  | none => { obj := o, destroyCalled := false, attrFault := false }
  | some _ =>
    match o.handleAttr with
    | none => { obj := o, destroyCalled := false, attrFault := true }
    | some none => { obj := o, destroyCalled := false, attrFault := false }
    | some (some h) =>
        let _status := destroyGen h
        { obj := { o with handleAttr := some none },
          destroyCalled := true, attrFault := false }

/-- Everything observable after `CURAND.__del__` ran. -/
structure DelResult where
  obj : CURANDObj
  ctx : Context
  destroyCalled : Bool
  err : Option PyErr
  deriving DecidableEq, Repr

/-- Python message of the `SystemError` raised on a destructor-order
violation (source line 191). -/
def destructorOrderMsg : String := "Incorrect destructor call order detected"

/-- `CURAND.__del__(self)` (source lines 189-193): if the owning context's
handle is already unset, raise `SystemError` without any cleanup; otherwise
run `self._release()` and then `self.context._del_ref(self)`. -/
def curandDel (destroyGen : Nat → Nat) (o : CURANDObj) (ctx : Context)
    (objId : Nat) : DelResult :=
  match ctx.handle with
  | none => { obj := o, ctx := ctx, destroyCalled := false,
              err := some (PyErr.systemError destructorOrderMsg) }
  | some _ =>
      let r := curandRelease destroyGen o
      if r.attrFault then
        { obj := r.obj, ctx := ctx, destroyCalled := false,
          err := some (PyErr.attrError "_handle") }
      else
        { obj := r.obj, ctx := ctxDelRef ctx objId,
          destroyCalled := r.destroyCalled, err := none }

/-! ### Lemmas about the dict operations -/

theorem dictGet_dictSet_self (t : Table) (k : Nat) (v : String) :
    dictGet (dictSet t k v) k = some v := by
  induction t with
  | nil => simp [dictGet, dictSet]
  | cons p rest ih =>
    obtain ⟨k', v'⟩ := p
    by_cases h : k' = k
    · simp [dictSet, dictGet, h]
    · simp [dictSet, dictGet, h, ih]

theorem dictGet_dictSet_ne (t : Table) (k : Nat) (v : String) (k' : Nat)
    (h : k' ≠ k) : dictGet (dictSet t k v) k' = dictGet t k' := by
  induction t with
  | nil => simp [dictGet, dictSet, Ne.symm h]
  | cons p rest ih =>
    obtain ⟨a, b⟩ := p
    by_cases hak : a = k
    · subst hak
      simp [dictSet, dictGet, Ne.symm h]
    · simp [dictSet, dictGet, hak, ih]

theorem mem_keys_dictSet (t : Table) (k : Nat) (v : String) (a : Nat)
    (h : a ∈ (dictSet t k v).map Prod.fst) :
    a ∈ t.map Prod.fst ∨ a = k := by
  induction t with
  | nil =>
    right
    rw [show dictSet [] k v = [(k, v)] from rfl] at h
    simpa using h
  | cons p rest ih =>
    obtain ⟨k', v'⟩ := p
    by_cases hk : k' = k
    · subst hk
      rw [show dictSet ((k', v') :: rest) k' v = (k', v) :: rest by
            simp [dictSet]] at h
      rw [List.map_cons, List.mem_cons] at h ⊢
      rcases h with h | h
      · left; left; exact h
      · left; right; exact h
    · rw [show dictSet ((k', v') :: rest) k v = (k', v') :: dictSet rest k v by
            simp [dictSet, hk]] at h
      rw [List.map_cons, List.mem_cons] at h ⊢
      rcases h with h | h
      · left; left; exact h
      · rcases ih h with h' | h'
        · left; right; exact h'
        · right; exact h'

theorem keysNodup_dictSet (t : Table) (k : Nat) (v : String)
    (h : keysNodup t) : keysNodup (dictSet t k v) := by
  induction t with
  | nil => simp [dictSet, keysNodup]
  | cons p rest ih =>
    obtain ⟨k', v'⟩ := p
    rw [keysNodup, List.map_cons, List.nodup_cons] at h
    by_cases hk : k' = k
    · subst hk
      rw [show dictSet ((k', v') :: rest) k' v = (k', v) :: rest by
            simp [dictSet]]
      rw [keysNodup, List.map_cons, List.nodup_cons]
      exact h
    · rw [show dictSet ((k', v') :: rest) k v = (k', v') :: dictSet rest k v by
            simp [dictSet, hk]]
      rw [keysNodup, List.map_cons, List.nodup_cons]
      refine ⟨fun hmem => ?_, ih h.2⟩
      rcases mem_keys_dictSet rest k v k' hmem with h' | h'
      · exact h.1 h'
      · exact hk h'

/-! ### Lemmas about the error-table merge -/

theorem dictGet_mergeOne_ne (t : Table) (c : Nat) (m : String) (code : Nat)
    (h : code ≠ c) : dictGet (mergeOne t c m) code = dictGet t code := by
  cases hg : dictGet t c with
  | none => simpa [mergeOne, hg] using dictGet_dictSet_ne t c m code h
  | some old =>
    by_cases hs : strIn (" | " ++ m) old
    · simp [mergeOne, hg, hs]
    · simpa [mergeOne, hg, hs] using
        dictGet_dictSet_ne t c (old ++ (" | " ++ m)) code h

theorem dictGet_mergeOne_prefix (t : Table) (c : Nat) (m : String)
    (code : Nat) (old : String) (h : dictGet t code = some old) :
    ∃ suf, dictGet (mergeOne t c m) code = some (old ++ suf) := by
  by_cases hc : code = c
  · subst hc
    by_cases hs : strIn (" | " ++ m) old
    · exact ⟨"", by simp [mergeOne, h, hs]⟩
    · exact ⟨" | " ++ m, by simp [mergeOne, h, hs, dictGet_dictSet_self]⟩
  · exact ⟨"", by rw [dictGet_mergeOne_ne t c m code hc, h]; simp⟩

theorem keysNodup_mergeOne (t : Table) (c : Nat) (m : String)
    (h : keysNodup t) : keysNodup (mergeOne t c m) := by
  cases hg : dictGet t c with
  | none => simpa [mergeOne, hg] using keysNodup_dictSet t c m h
  | some old =>
    by_cases hs : strIn (" | " ++ m) old
    · simpa [mergeOne, hg, hs] using h
    · simpa [mergeOne, hg, hs] using
        keysNodup_dictSet t c (old ++ (" | " ++ m)) h

theorem dictGet_mergeInto_ne (l : List (Nat × String)) :
    ∀ (t : Table) (code : Nat), code ∉ l.map Prod.fst →
    dictGet (mergeInto t l) code = dictGet t code := by
  induction l with
  | nil => intro t code _; rfl
  | cons p rest ih =>
    intro t code h
    obtain ⟨c, m⟩ := p
    rw [List.map_cons, List.mem_cons, not_or] at h
    rw [mergeInto, ih _ code h.2, dictGet_mergeOne_ne t c m code h.1]

theorem dictGet_mergeInto_prefix (l : List (Nat × String)) :
    ∀ (t : Table) (code : Nat) (old : String), dictGet t code = some old →
    ∃ suf, dictGet (mergeInto t l) code = some (old ++ suf) := by
  induction l with
  | nil => intro t code old h; exact ⟨"", by rw [mergeInto, h]; simp⟩
  | cons p rest ih =>
    intro t code old h
    obtain ⟨c, m⟩ := p
    obtain ⟨s1, h1⟩ := dictGet_mergeOne_prefix t c m code old h
    obtain ⟨s2, h2⟩ := ih (mergeOne t c m) code (old ++ s1) h1
    exact ⟨s1 ++ s2, by rw [mergeInto, h2, String.append_assoc]⟩

theorem keysNodup_mergeInto (l : List (Nat × String)) :
    ∀ t : Table, keysNodup t → keysNodup (mergeInto t l) := by
  induction l with
  | nil => intro t h; exact h
  | cons p rest ih =>
    intro t h
    obtain ⟨c, m⟩ := p
    exact ih (mergeOne t c m) (keysNodup_mergeOne t c m h)

theorem dictGet_mergeInto_fresh (l : List (Nat × String)) :
    ∀ (t : Table) (code : Nat) (msg : String), (l.map Prod.fst).Nodup →
    (code, msg) ∈ l → dictGet t code = none →
    dictGet (mergeInto t l) code = some msg := by
  induction l with
  | nil => intro t code msg _ hmem _; cases hmem
  | cons p rest ih =>
    intro t code msg hn hmem h
    obtain ⟨c, m⟩ := p
    rw [List.map_cons, List.nodup_cons] at hn
    rcases List.mem_cons.mp hmem with heq | hmem'
    · injection heq with h1 h2
      subst h1; subst h2
      rw [mergeInto, dictGet_mergeInto_ne rest _ code hn.1]
      simp [mergeOne, h, dictGet_dictSet_self]
    · have hmm : Prod.fst (code, msg) ∈ List.map Prod.fst rest :=
        List.mem_map_of_mem Prod.fst hmem'
      have hcc : code ≠ c := fun hx => hn.1 (hx ▸ hmm)
      rw [mergeInto]
      refine ih (mergeOne t c m) code msg hn.2 hmem' ?_
      rw [dictGet_mergeOne_ne t c m code hcc]
      exact h

/-! ### Lemmas about the loader -/

theorem findLoadable_spec (loads : String → Bool) :
    ∀ (bs : List String) (name : String), findLoadable loads bs = some name →
    loads name = true ∧
      ∃ pre post, bs = pre ++ name :: post ∧ ∀ m ∈ pre, loads m = false := by
  intro bs
  induction bs with
  | nil => intro name h; simp [findLoadable] at h
  | cons b rest ih =>
    intro name h
    by_cases hb : loads b = true
    · rw [findLoadable, if_pos hb] at h
      injection h with h
      subst h
      exact ⟨hb, [], rest, rfl, by simp⟩
    · rw [findLoadable, if_neg hb] at h
      obtain ⟨h1, pre, post, heq, hall⟩ := ih name h
      refine ⟨h1, b :: pre, post, by rw [heq]; rfl, ?_⟩
      intro m hm
      rcases List.mem_cons.mp hm with rfl | hm'
      · exact Bool.not_eq_true _ ▸ eq_false_of_ne_true hb
      · exact hall m hm'

theorem findLoadable_eq_none (loads : String → Bool) :
    ∀ bs : List String,
    findLoadable loads bs = none ↔ ∀ b ∈ bs, loads b = false := by
  intro bs
  induction bs with
  | nil => simp [findLoadable]
  | cons b rest ih =>
    by_cases hb : loads b = true
    · simp [findLoadable, hb]
    · have hb' : loads b = false := eq_false_of_ne_true hb
      simp [findLoadable, hb', ih]

theorem initializeLib_noop_of_loaded (loads : String → Bool)
    (backends : List String) (st : LoaderState) (h : st.lib.isSome) :
    initializeLib loads backends st = (st, none) := by
  simp [initializeLib, h]

theorem initializeOnce_noop_of_loaded (loads : String → Bool)
    (backends : List String) (st : LoaderState) (h : st.lib.isSome) :
    initializeOnce loads backends st = (st, none) := by
  simp [initializeOnce, h]

theorem initializeLib_ok_lib (loads : String → Bool) (backends : List String)
    (st : LoaderState) (h : (initializeLib loads backends st).2 = none) :
    (initializeLib loads backends st).1.lib.isSome := by
  by_cases hs : st.lib.isSome
  · simp [initializeLib, hs]
  · cases hf : findLoadable loads backends with
    | none => simp [initializeLib, initializeOnce, hs, hf] at h
    | some n => simp [initializeLib, initializeOnce, hs, hf]

theorem dictGet_mergeInto_present (l : List (Nat × String)) :
    ∀ (t : Table) (code : Nat) (msg old : String), (l.map Prod.fst).Nodup →
    (code, msg) ∈ l → dictGet t code = some old →
    strIn (" | " ++ msg) old = true →
    dictGet (mergeInto t l) code = some old := by
  induction l with
  | nil => intro t code msg old _ hmem _ _; cases hmem
  | cons p rest ih =>
    intro t code msg old hn hmem h hsub
    obtain ⟨c, m⟩ := p
    rw [List.map_cons, List.nodup_cons] at hn
    rcases List.mem_cons.mp hmem with heq | hmem'
    · injection heq with h1 h2
      subst h1; subst h2
      rw [mergeInto, show mergeOne t code msg = t by simp [mergeOne, h, hsub],
          dictGet_mergeInto_ne rest t code hn.1]
      exact h
    · have hmm : Prod.fst (code, msg) ∈ List.map Prod.fst rest :=
        List.mem_map_of_mem Prod.fst hmem'
      have hcc : code ≠ c := fun hx => hn.1 (hx ▸ hmm)
      rw [mergeInto]
      refine ih (mergeOne t c m) code msg old hn.2 hmem' ?_ hsub
      rw [dictGet_mergeOne_ne t c m code hcc]
      exact h

/-! ### Lemmas about the CURAND object -/

theorem curandRelease_no_attrFault (destroyGen : Nat → Nat) (o : CURANDObj)
    (hwf : wfObj o) : (curandRelease destroyGen o).attrFault = false := by
  cases hl : o.lib with
  | none => simp [curandRelease, hl]
  | some l =>
    have hs : o.handleAttr.isSome := hwf (by simp [hl])
    cases ha : o.handleAttr with
    | none => simp [ha] at hs
    | some hh => cases hh <;> simp [curandRelease, hl, ha]

theorem curandInit_ctx (loads : String → Bool) (createGen : Nat → Nat × Nat)
    (objId : Nat) (ctx : Context) (st : LoaderState) (rngType : Nat) :
    (curandInit loads createGen objId ctx st rngType).ctx =
      ctxAddRef ctx objId := by
  cases hp : (initializeLib loads defaultBackends st).2 with
  | some e => simp [curandInit, hp]
  | none =>
    by_cases hz : (createGen rngType).1 = 0 <;> simp [curandInit, hp, hz]

/-! ### Claim theorems -/

/-- C3 (amended): a single merge of the curand error descriptions into the
shared table is additive and never overwrites: key uniqueness is preserved;
for a code already present, the pre-existing description is preserved as a
prefix of the merged entry, and nothing at all is appended when the
separator-prefixed description already occurs in it; an absent code is
inserted fresh with exactly the curand description.  But repeating the merge
leaves the table unchanged only at codes that were already keys before the
first merge: a freshly inserted code has its description appended again on a
repeat (see the counterexample); in the program the merge cannot run twice
because `_initialize` returns before merging whenever the library is already
set. -/
theorem merge_additive_never_overwrites (t : Table) (h : keysNodup t) :
    keysNodup (mergeErrors t) ∧
    (∀ code old, dictGet t code = some old →
      ∃ suf, dictGet (mergeErrors t) code = some (old ++ suf)) ∧
    (∀ code msg old, (code, msg) ∈ ERRORS → dictGet t code = some old →
      strIn (" | " ++ msg) old = true →
      dictGet (mergeErrors t) code = some old) ∧
    (∀ code msg, (code, msg) ∈ ERRORS → dictGet t code = none →
      dictGet (mergeErrors t) code = some msg) ∧
    (∀ (loads : String → Bool) (backends : List String) (st : LoaderState),
      st.lib.isSome → initializeOnce loads backends st = (st, none)) := by
  have hn : (ERRORS.map Prod.fst).Nodup := by decide
  refine ⟨keysNodup_mergeInto ERRORS t h, ?_, ?_, ?_, ?_⟩
  · intro code old hg
    exact dictGet_mergeInto_prefix ERRORS t code old hg
  · intro code msg old hmem hg hsub
    exact dictGet_mergeInto_present ERRORS t code msg old hn hmem hg hsub
  · intro code msg hmem hg
    exact dictGet_mergeInto_fresh ERRORS t code msg hn hmem hg
  · intro loads backends st hs
    exact initializeOnce_noop_of_loaded loads backends st hs

/-- Witness for `merge_additive_never_overwrites` at the empty table. -/
theorem merge_additive_never_overwrites_witness :
    keysNodup ([] : Table) ∧
    (keysNodup (mergeErrors []) ∧
     (∀ code old, dictGet [] code = some old →
       ∃ suf, dictGet (mergeErrors []) code = some (old ++ suf)) ∧
     (∀ code msg old, (code, msg) ∈ ERRORS → dictGet [] code = some old →
       strIn (" | " ++ msg) old = true →
       dictGet (mergeErrors []) code = some old) ∧
     (∀ code msg, (code, msg) ∈ ERRORS → dictGet [] code = none →
       dictGet (mergeErrors []) code = some msg) ∧
     (∀ (loads : String → Bool) (backends : List String) (st : LoaderState),
       st.lib.isSome → initializeOnce loads backends st = (st, none))) :=
  ⟨by decide, merge_additive_never_overwrites [] (by decide)⟩

/-- C3 counterexample: repeating the merge does not leave the shared table
unchanged.  Starting from the empty table, code 100 is inserted fresh by the
first merge, and a second merge appends the same description once more. -/
theorem merge_repeat_changes_table :
    dictGet (mergeErrors []) CURAND_STATUS_VERSION_MISMATCH =
      some "CURAND_STATUS_VERSION_MISMATCH" ∧
    dictGet (mergeErrors (mergeErrors [])) CURAND_STATUS_VERSION_MISMATCH =
      some "CURAND_STATUS_VERSION_MISMATCH | CURAND_STATUS_VERSION_MISMATCH" ∧
    mergeErrors (mergeErrors []) ≠ mergeErrors [] := by decide

/-- C5: `initialize` is idempotent with respect to the one-time load: when
the library binding is already set, both the outer guard in `initialize` and
the re-check inside the lock-protected `_initialize` (check-lock-check)
return immediately, leaving the binding, the parser flag and the shared
error table untouched; and after any call that completed the load, a further
call is an identity, so repeated sequential calls perform the one-time load
exactly once. -/
theorem initialize_idempotent (loads : String → Bool) (backends : List String)
    (st : LoaderState) (h : st.lib.isSome) :
    initializeLib loads backends st = (st, none) ∧
    initializeOnce loads backends st = (st, none) ∧
    (∀ (loads2 : String → Bool) (backends2 : List String) (st0 : LoaderState),
      (initializeLib loads2 backends2 st0).2 = none →
      initializeLib loads2 backends2 (initializeLib loads2 backends2 st0).1 =
        ((initializeLib loads2 backends2 st0).1, none)) := by
  refine ⟨initializeLib_noop_of_loaded loads backends st h,
          initializeOnce_noop_of_loaded loads backends st h, ?_⟩
  intro loads2 backends2 st0 h0
  exact initializeLib_noop_of_loaded loads2 backends2 _
    (initializeLib_ok_lib loads2 backends2 st0 h0)

/-- A concrete loaded state, for witnesses. -/
def loadedState : LoaderState :=
  { ffi := true, lib := some "libcurand.so", cuErrors := mergeErrors [] }

/-- Witness for `initialize_idempotent` at a concrete loaded state. -/
theorem initialize_idempotent_witness :
    loadedState.lib.isSome ∧
    (initializeLib (fun _ => true) defaultBackends loadedState =
       (loadedState, none) ∧
     initializeOnce (fun _ => true) defaultBackends loadedState =
       (loadedState, none) ∧
     (∀ (loads2 : String → Bool) (backends2 : List String) (st0 : LoaderState),
       (initializeLib loads2 backends2 st0).2 = none →
       initializeLib loads2 backends2 (initializeLib loads2 backends2 st0).1 =
         ((initializeLib loads2 backends2 st0).1, none))) :=
  ⟨rfl, initialize_idempotent (fun _ => true) defaultBackends loadedState rfl⟩

/-- C6: with the library not yet loaded, when no candidate backend is
loadable (equivalently, every candidate fails, which covers the empty list),
`initialize` raises the library-not-found `OSError` and leaves `lib` and
`ffi` unset and the shared table untouched; a later call with a loadable
candidate list still succeeds; candidates are attempted in order and the
first loadable one wins. -/
theorem initialize_failure_retry (loads : String → Bool)
    (backends : List String) (st : LoaderState) (hst : st.lib = none)
    (hfail : findLoadable loads backends = none) :
    initializeLib loads backends st =
      ({ st with ffi := false }, some couldNotLoadMsg) ∧
    (∀ b ∈ backends, loads b = false) ∧
    (∀ (loads2 : String → Bool) (backends2 : List String) (name : String),
      findLoadable loads2 backends2 = some name →
      initializeLib loads2 backends2 { st with ffi := false } =
        ({ ffi := true, lib := some name,
           cuErrors := mergeErrors st.cuErrors }, none)) ∧
    (∀ (loads2 : String → Bool) (bs : List String) (name : String),
      findLoadable loads2 bs = some name →
      loads2 name = true ∧
        ∃ pre post, bs = pre ++ name :: post ∧ ∀ m ∈ pre, loads2 m = false) := by
  have hs : ¬st.lib.isSome = true := by simp [hst]
  refine ⟨?_, (findLoadable_eq_none loads backends).mp hfail, ?_, ?_⟩
  · simp [initializeLib, initializeOnce, hs, hfail]
  · intro loads2 backends2 name hfind
    simp [initializeLib, initializeOnce, hst, hfind]
  · intro loads2 bs name hfind
    exact findLoadable_spec loads2 bs name hfind

/-- Witness for `initialize_failure_retry`: no candidate in
`["libnonexistent.so"]` loads under the always-failing loader. -/
theorem initialize_failure_retry_witness :
    initialState.lib = none ∧
    findLoadable (fun _ => false) ["libnonexistent.so"] = none ∧
    (initializeLib (fun _ => false) ["libnonexistent.so"] initialState =
       ({ initialState with ffi := false }, some couldNotLoadMsg) ∧
     (∀ b ∈ ["libnonexistent.so"], (fun _ => false : String → Bool) b = false) ∧
     (∀ (loads2 : String → Bool) (backends2 : List String) (name : String),
       findLoadable loads2 backends2 = some name →
       initializeLib loads2 backends2 { initialState with ffi := false } =
         ({ ffi := true, lib := some name,
            cuErrors := mergeErrors initialState.cuErrors }, none)) ∧
     (∀ (loads2 : String → Bool) (bs : List String) (name : String),
       findLoadable loads2 bs = some name →
       loads2 name = true ∧
         ∃ pre post, bs = pre ++ name :: post ∧
           ∀ m ∈ pre, loads2 m = false)) :=
  ⟨rfl, rfl,
   initialize_failure_retry (fun _ => false) ["libnonexistent.so"]
     initialState rfl rfl⟩

/-- C7 (amended): when no candidate library loads, the raised `OSError`
carries the fixed message "Could not load curand library", which is
independent of the candidate list and does not include the attempted
candidate names. -/
theorem loadError_fixed_message (loads : String → Bool)
    (backends : List String) (st : LoaderState) (hst : st.lib = none)
    (hfail : findLoadable loads backends = none) :
    (initializeLib loads backends st).2 = some couldNotLoadMsg := by
  have hs : ¬st.lib.isSome = true := by simp [hst]
  simp [initializeLib, initializeOnce, hs, hfail]

/-- Witness for `loadError_fixed_message` at a concrete failing pair of
candidates. -/
theorem loadError_fixed_message_witness :
    initialState.lib = none ∧
    findLoadable (fun _ => false) ["liba.so", "libb.so"] = none ∧
    (initializeLib (fun _ => false) ["liba.so", "libb.so"] initialState).2 =
      some couldNotLoadMsg :=
  ⟨rfl, rfl,
   loadError_fixed_message (fun _ => false) ["liba.so", "libb.so"]
     initialState rfl rfl⟩

/-- C7 counterexample: with the single unloadable candidate
"libnonexistent.so", the raised message is the fixed string, and the
candidate name does not occur in it — the error does not carry the
attempted candidate library names. -/
theorem loadError_no_names :
    (initializeLib (fun _ => false) ["libnonexistent.so"] initialState).2 =
      some couldNotLoadMsg ∧
    strIn "libnonexistent.so" couldNotLoadMsg = false := by decide

/-- C1: for every supported RNG algorithm kind, constructing a `CURAND`
object against a valid, active context (library loadable) either succeeds —
no exception, the native handle value (an unsigned `size_t`, hence a
non-negative integer) stored in `_handle` and the binding reference stored
in `_lib` — or fails raising the error that carries the operation name
"curandCreateGenerator" and the non-zero status code, in which case
`_handle` is set to `None` and no binding reference is stored. -/
theorem curand_init_spec (loads : String → Bool) (createGen : Nat → Nat × Nat)
    (objId : Nat) (ctx : Context) (st : LoaderState) (rngType : Nat)
    (_hkind : rngType ∈ supportedRngKinds) (_hctx : ctx.handle.isSome)
    (hload : (initializeLib loads defaultBackends st).2 = none) :
    ((curandInit loads createGen objId ctx st rngType).err = none ∧
     (curandInit loads createGen objId ctx st rngType).obj.handleAttr =
       some (some (createGen rngType).2) ∧
     (curandInit loads createGen objId ctx st rngType).obj.lib.isSome) ∨
    ((createGen rngType).1 ≠ 0 ∧
     (curandInit loads createGen objId ctx st rngType).err =
       some (PyErr.cuError "curandCreateGenerator" (createGen rngType).1) ∧
     (curandInit loads createGen objId ctx st rngType).obj.handleAttr =
       some none ∧
     (curandInit loads createGen objId ctx st rngType).obj.lib = none) := by
  have hl := initializeLib_ok_lib loads defaultBackends st hload
  by_cases hz : (createGen rngType).1 = 0
  · left
    refine ⟨by simp [curandInit, hload, hz], by simp [curandInit, hload, hz],
            ?_⟩
    simpa [curandInit, hload, hz] using hl
  · right
    exact ⟨hz, by simp [curandInit, hload, hz], by simp [curandInit, hload, hz],
           by simp [curandInit, hload, hz]⟩

/-- A concrete valid context, for witnesses. -/
def ctx5 : Context := { handle := some 5, refs := [] }

/-- Witness for `curand_init_spec`: default pseudorandom kind, a loader that
always succeeds, a native create call returning status 0 and handle 7. -/
theorem curand_init_spec_witness :
    CURAND_RNG_PSEUDO_DEFAULT ∈ supportedRngKinds ∧ ctx5.handle.isSome ∧
    (initializeLib (fun _ => true) defaultBackends initialState).2 = none ∧
    (((curandInit (fun _ => true) (fun _ => (0, 7)) 1 ctx5 initialState
         CURAND_RNG_PSEUDO_DEFAULT).err = none ∧
      (curandInit (fun _ => true) (fun _ => (0, 7)) 1 ctx5 initialState
         CURAND_RNG_PSEUDO_DEFAULT).obj.handleAttr =
        some (some ((fun _ => (0, 7) : Nat → Nat × Nat)
          CURAND_RNG_PSEUDO_DEFAULT).2) ∧
      (curandInit (fun _ => true) (fun _ => (0, 7)) 1 ctx5 initialState
         CURAND_RNG_PSEUDO_DEFAULT).obj.lib.isSome) ∨
     (((fun _ => (0, 7) : Nat → Nat × Nat) CURAND_RNG_PSEUDO_DEFAULT).1 ≠ 0 ∧
      (curandInit (fun _ => true) (fun _ => (0, 7)) 1 ctx5 initialState
         CURAND_RNG_PSEUDO_DEFAULT).err =
        some (PyErr.cuError "curandCreateGenerator"
          ((fun _ => (0, 7) : Nat → Nat × Nat) CURAND_RNG_PSEUDO_DEFAULT).1) ∧
      (curandInit (fun _ => true) (fun _ => (0, 7)) 1 ctx5 initialState
         CURAND_RNG_PSEUDO_DEFAULT).obj.handleAttr = some none ∧
      (curandInit (fun _ => true) (fun _ => (0, 7)) 1 ctx5 initialState
         CURAND_RNG_PSEUDO_DEFAULT).obj.lib = none)) :=
  ⟨by decide, rfl, rfl,
   curand_init_spec (fun _ => true) (fun _ => (0, 7)) 1 ctx5 initialState
     CURAND_RNG_PSEUDO_DEFAULT (by decide) rfl rfl⟩

/-- C2: at `__del__` time, when the owning context's handle is already unset
a `SystemError` — a constructor distinct from the ordinary `CU.error`
status errors — is raised and no cleanup happens: the object is untouched,
the native destroy is not called, and the context's reference tracking is
not updated; when the context's handle is still set, `_release` runs and
then the object is deregistered via `context._del_ref`. -/
theorem curand_del_spec (destroyGen : Nat → Nat) (o : CURANDObj)
    (ctx : Context) (objId : Nat) (hwf : wfObj o) :
    (ctx.handle = none →
      curandDel destroyGen o ctx objId =
        { obj := o, ctx := ctx, destroyCalled := false,
          err := some (PyErr.systemError destructorOrderMsg) }) ∧
    (∀ op code, PyErr.systemError destructorOrderMsg ≠
        PyErr.cuError op code) ∧
    (∀ h, ctx.handle = some h →
      (curandDel destroyGen o ctx objId).err = none ∧
      (curandDel destroyGen o ctx objId).ctx = ctxDelRef ctx objId ∧
      (curandDel destroyGen o ctx objId).obj =
        (curandRelease destroyGen o).obj ∧
      (curandDel destroyGen o ctx objId).destroyCalled =
        (curandRelease destroyGen o).destroyCalled) := by
  have hf := curandRelease_no_attrFault destroyGen o hwf
  refine ⟨fun h => by simp [curandDel, h], ?_, ?_⟩
  · intro op code hx
    exact PyErr.noConfusion hx
  · intro h hh
    refine ⟨?_, ?_, ?_, ?_⟩ <;> simp [curandDel, hh, hf]

/-- A concrete fully-constructed object, for witnesses. -/
def liveObj : CURANDObj :=
  { lib := some "libcurand.so", handleAttr := some (some 7) }

/-- A concrete context already torn down, with one tracked reference. -/
def deadCtx : Context := { handle := none, refs := [3] }

/-- Witness for `curand_del_spec` on a live object and a torn-down
context. -/
theorem curand_del_spec_witness :
    wfObj liveObj ∧
    ((deadCtx.handle = none →
      curandDel (fun _ => 0) liveObj deadCtx 3 =
        { obj := liveObj, ctx := deadCtx, destroyCalled := false,
          err := some (PyErr.systemError destructorOrderMsg) }) ∧
     (∀ op code, PyErr.systemError destructorOrderMsg ≠
        PyErr.cuError op code) ∧
     (∀ h, deadCtx.handle = some h →
       (curandDel (fun _ => 0) liveObj deadCtx 3).err = none ∧
       (curandDel (fun _ => 0) liveObj deadCtx 3).ctx = ctxDelRef deadCtx 3 ∧
       (curandDel (fun _ => 0) liveObj deadCtx 3).obj =
         (curandRelease (fun _ => 0) liveObj).obj ∧
       (curandDel (fun _ => 0) liveObj deadCtx 3).destroyCalled =
         (curandRelease (fun _ => 0) liveObj).destroyCalled)) :=
  ⟨by decide, curand_del_spec (fun _ => 0) liveObj deadCtx 3 (by decide)⟩

/-- C4: `_release` is idempotent: on an object with both a live binding
reference and a live handle, the native destroy is invoked and `_handle` is
cleared to `None`; a second release is a no-op raising nothing and invoking
nothing; after release the `handle` property and the `__int__` conversion
both yield the unset sentinel, never the previously valid handle value; and
the destroy call is never made on an object missing either the binding
reference or a live handle. -/
theorem curand_release_idempotent (destroyGen : Nat → Nat) (o : CURANDObj)
    (l : String) (h : Nat) (hl : o.lib = some l)
    (hh : o.handleAttr = some (some h)) :
    (curandRelease destroyGen o).destroyCalled = true ∧
    (curandRelease destroyGen o).obj.handleAttr = some none ∧
    curandRelease destroyGen (curandRelease destroyGen o).obj =
      { obj := (curandRelease destroyGen o).obj, destroyCalled := false,
        attrFault := false } ∧
    handleProp (curandRelease destroyGen o).obj = some none ∧
    intOf (curandRelease destroyGen o).obj = some none ∧
    handleProp (curandRelease destroyGen o).obj ≠ some (some h) ∧
    (∀ o' : CURANDObj, o'.lib = none ∨ o'.handleAttr = some none →
      (curandRelease destroyGen o').destroyCalled = false ∧
      (curandRelease destroyGen o').obj = o') := by
  refine ⟨by simp [curandRelease, hl, hh], by simp [curandRelease, hl, hh],
          by simp [curandRelease, hl, hh], by simp [curandRelease, hl, hh,
            handleProp],
          by simp [curandRelease, hl, hh, handleProp, intOf],
          by simp [curandRelease, hl, hh, handleProp], ?_⟩
  intro o' h'
  rcases h' with h' | h'
  · simp [curandRelease, h']
  · cases hl' : o'.lib with
    | none => simp [curandRelease, hl']
    | some l' => simp [curandRelease, hl', h']

/-- Witness for `curand_release_idempotent` on the concrete live object. -/
theorem curand_release_idempotent_witness :
    liveObj.lib = some "libcurand.so" ∧
    liveObj.handleAttr = some (some 7) ∧
    ((curandRelease (fun _ => 105) liveObj).destroyCalled = true ∧
     (curandRelease (fun _ => 105) liveObj).obj.handleAttr = some none ∧
     curandRelease (fun _ => 105) (curandRelease (fun _ => 105) liveObj).obj =
       { obj := (curandRelease (fun _ => 105) liveObj).obj,
         destroyCalled := false, attrFault := false } ∧
     handleProp (curandRelease (fun _ => 105) liveObj).obj = some none ∧
     intOf (curandRelease (fun _ => 105) liveObj).obj = some none ∧
     handleProp (curandRelease (fun _ => 105) liveObj).obj ≠ some (some 7) ∧
     (∀ o' : CURANDObj, o'.lib = none ∨ o'.handleAttr = some none →
       (curandRelease (fun _ => 105) o').destroyCalled = false ∧
       (curandRelease (fun _ => 105) o').obj = o')) :=
  ⟨rfl, rfl,
   curand_release_idempotent (fun _ => 105) liveObj "libcurand.so" 7 rfl rfl⟩

/-- C8: a non-zero status from the native destroy call is never escalated:
the outcome of `_release` is entirely independent of the destroy call's
status function, `_release` raises nothing on any well-formed object, and
whenever the destroy call was invoked the local handle ends up cleared to
`None`. -/
theorem curand_release_swallows_destroy_status (o : CURANDObj)
    (hwf : wfObj o) :
    (∀ d1 d2 : Nat → Nat, curandRelease d1 o = curandRelease d2 o) ∧
    (∀ d : Nat → Nat, (curandRelease d o).attrFault = false) ∧
    (∀ d : Nat → Nat, (curandRelease d o).destroyCalled = true →
      (curandRelease d o).obj.handleAttr = some none) := by
  refine ⟨?_, fun d => curandRelease_no_attrFault d o hwf, ?_⟩
  · intro d1 d2
    cases hl : o.lib with
    | none => simp [curandRelease, hl]
    | some l =>
      cases ha : o.handleAttr with
      | none => simp [curandRelease, hl, ha]
      | some hh => cases hh <;> simp [curandRelease, hl, ha]
  · intro d hcall
    cases hl : o.lib with
    | none => simp [curandRelease, hl] at hcall
    | some l =>
      cases ha : o.handleAttr with
      | none => simp [curandRelease, hl, ha] at hcall
      | some hh =>
        cases hh with
        | none => simp [curandRelease, hl, ha] at hcall
        | some hv => simp [curandRelease, hl, ha]

/-- Witness for `curand_release_swallows_destroy_status` on the concrete
live object. -/
theorem curand_release_swallows_destroy_status_witness :
    wfObj liveObj ∧
    ((∀ d1 d2 : Nat → Nat, curandRelease d1 liveObj = curandRelease d2 liveObj) ∧
     (∀ d : Nat → Nat, (curandRelease d liveObj).attrFault = false) ∧
     (∀ d : Nat → Nat, (curandRelease d liveObj).destroyCalled = true →
       (curandRelease d liveObj).obj.handleAttr = some none)) :=
  ⟨by decide, curand_release_swallows_destroy_status liveObj (by decide)⟩

/-- C9: whenever construction failed (library-load failure or a non-zero
native create status), the object left behind has no binding reference
(`_lib` is set to `None` before any fallible step), and `_release` on it is
safe: the short-circuit guard tests `_lib` first, so no native call is
made, the possibly-unassigned `_handle` attribute is never read (no
`AttributeError`), and the object is left untouched. -/
theorem curand_failed_init_release_safe (loads : String → Bool)
    (createGen : Nat → Nat × Nat) (objId : Nat) (ctx : Context)
    (st : LoaderState) (rngType : Nat)
    (hfail : (curandInit loads createGen objId ctx st rngType).err.isSome) :
    (curandInit loads createGen objId ctx st rngType).obj.lib = none ∧
    (∀ d : Nat → Nat,
      curandRelease d (curandInit loads createGen objId ctx st rngType).obj =
        { obj := (curandInit loads createGen objId ctx st rngType).obj,
          destroyCalled := false, attrFault := false }) := by
  have hlib :
      (curandInit loads createGen objId ctx st rngType).obj.lib = none := by
    cases hp : (initializeLib loads defaultBackends st).2 with
    | some e => simp [curandInit, hp]
    | none =>
      by_cases hz : (createGen rngType).1 = 0
      · simp [curandInit, hp, hz] at hfail
      · simp [curandInit, hp, hz]
  exact ⟨hlib, fun d => by simp [curandRelease, hlib]⟩

/-- Witness for `curand_failed_init_release_safe`: construction under a
loader for which no backend loads. -/
theorem curand_failed_init_release_safe_witness :
    (curandInit (fun _ => false) (fun _ => (0, 7)) 1 ctx5 initialState
       CURAND_RNG_PSEUDO_DEFAULT).err.isSome ∧
    ((curandInit (fun _ => false) (fun _ => (0, 7)) 1 ctx5 initialState
        CURAND_RNG_PSEUDO_DEFAULT).obj.lib = none ∧
     (∀ d : Nat → Nat,
       curandRelease d (curandInit (fun _ => false) (fun _ => (0, 7)) 1 ctx5
           initialState CURAND_RNG_PSEUDO_DEFAULT).obj =
         { obj := (curandInit (fun _ => false) (fun _ => (0, 7)) 1 ctx5
             initialState CURAND_RNG_PSEUDO_DEFAULT).obj,
           destroyCalled := false, attrFault := false })) :=
  ⟨rfl,
   curand_failed_init_release_safe (fun _ => false) (fun _ => (0, 7)) 1 ctx5
     initialState CURAND_RNG_PSEUDO_DEFAULT rfl⟩

/-- C10: construction appends the object to the context's reference
tracking exactly once, and this holds in every outcome — also when the
library load or the native create call fails, so the registration is never
rolled back; deregistration happens only in `__del__`, and there only on
the non-fatal path (with the context handle still set), via
`context._del_ref`. -/
theorem curand_refcount_registration (loads : String → Bool)
    (createGen : Nat → Nat × Nat) (objId : Nat) (ctx : Context)
    (st : LoaderState) (rngType : Nat) (destroyGen : Nat → Nat) :
    (curandInit loads createGen objId ctx st rngType).ctx.refs =
      ctx.refs ++ [objId] ∧
    (∀ (o : CURANDObj) (ctx2 : Context), ctx2.handle = none →
      (curandDel destroyGen o ctx2 objId).ctx = ctx2) ∧
    (∀ (o : CURANDObj) (ctx2 : Context) (h : Nat), ctx2.handle = some h →
      wfObj o →
      (curandDel destroyGen o ctx2 objId).ctx = ctxDelRef ctx2 objId) := by
  refine ⟨by rw [curandInit_ctx]; rfl, ?_, ?_⟩
  · intro o ctx2 h
    simp [curandDel, h]
  · intro o ctx2 h hh hwf
    simp [curandDel, hh, curandRelease_no_attrFault destroyGen o hwf]

/-- Witness for `curand_refcount_registration`: a failing construction still
registers the reference, and `__del__` against the torn-down context leaves
the tracking untouched. -/
theorem curand_refcount_registration_witness :
    (curandInit (fun _ => false) (fun _ => (0, 7)) 3 deadCtx initialState
       CURAND_RNG_PSEUDO_DEFAULT).ctx.refs = deadCtx.refs ++ [3] ∧
    (∀ (o : CURANDObj) (ctx2 : Context), ctx2.handle = none →
      (curandDel (fun _ => 0) o ctx2 3).ctx = ctx2) ∧
    (∀ (o : CURANDObj) (ctx2 : Context) (h : Nat), ctx2.handle = some h →
      wfObj o →
      (curandDel (fun _ => 0) o ctx2 3).ctx = ctxDelRef ctx2 3) :=
  curand_refcount_registration (fun _ => false) (fun _ => (0, 7)) 3 deadCtx
    initialState CURAND_RNG_PSEUDO_DEFAULT (fun _ => 0)

end Cuda4pyCurand
